import Mathlib

/-!
Verification of the invocation-setup pipeline of `cvtsudoers`
(src/plugins/sudoers/cvtsudoers.c).

The C program is embedded shallowly: every OS interaction that `main`
performs (argument vector, effective/real uid, the SUDO_USER environment
variable, passwd lookups, hostname lookup, defaults initialization, the
external exporter) is a field of a `World` record, and `run` computes the
observable outcome of one process invocation (exit code, whether usage or
help or version text was printed, the resolved identity and host strings,
and whether and how the external exporter was invoked).

C strings are modelled as `List Char`; a NULL result of a lookup is
`Option.none`; memory allocation (strdup, locale setup) is modelled as
infallible except where the claims require otherwise.
-/

/-- Coerce a Lean string literal to the `List Char` representation used for
C strings throughout this development. -/
def str (s : String) : List Char := s.data

/-- The test `strcasecmp(a, b) == 0`: ASCII case-insensitive string equality, as used
by the `-f` option check `strcasecmp(optarg, "json") != 0`. -/
def strcaseEq (a b : List Char) : Bool :=
  a.map Char.toLower == b.map Char.toLower

/-- A passwd-style user record (`struct passwd`), with the fields the spec's
`Identity` names: numeric user id, primary group, home directory, shell,
display name. -/
structure Passwd where
  pw_name : List Char
  pw_uid : Nat
  pw_gid : Nat
  pw_dir : List Char
  pw_shell : List Char
deriving DecidableEq, Repr

/-- The four host-name globals set by `get_hostname`:
`user_host`, `user_shost`, `user_runhost`, `user_srunhost`. -/
structure HostInfo where
  user_host : List Char
  user_shost : List Char
  user_runhost : List Char
  user_srunhost : List Char
deriving DecidableEq, Repr

/-- The prefix of a C string before the first `'.'`; this is what the
`*p = '\0'; strdup(user_host)` sequence in `get_hostname` produces when
`strchr(user_host, '.')` finds `p`. -/
def takeUntilDot : List Char → List Char
  | [] => []
  | c :: cs => if c = '.' then [] else c :: takeUntilDot cs

/-- The test `strchr(s, '.') != NULL`: whether a C string contains a dot. -/
def hasDot : List Char → Bool
  | [] => false
  | c :: cs => if c = '.' then true else hasDot cs

/-- Function `get_hostname` from cvtsudoers.c: if `sudo_gethostname()` returns a
name, split it at the first dot for the short host (the full name is
restored by `*p = '.'`); if it returns NULL, all fields become the literal
"localhost". `user_runhost` and `user_srunhost` are then aliased to
`user_host` and `user_shost`. -/
def get_hostname (gh : Option (List Char)) : HostInfo :=
  match gh with
  | some h =>
      if hasDot h then
        { user_host := h, user_shost := takeUntilDot h
          user_runhost := h, user_srunhost := takeUntilDot h }
      else
        { user_host := h, user_shost := h
          user_runhost := h, user_srunhost := h }
  | none =>
      { user_host := str "localhost", user_shost := str "localhost"
        user_runhost := str "localhost", user_srunhost := str "localhost" }

/-- STUB `init_envtables` from cvtsudoers.c: always returns true. -/
def init_envtables : Bool := true

/-- STUB `user_is_exempt` from cvtsudoers.c: always returns false. -/
def user_is_exempt : Bool := false

/-- STUB `group_plugin_query` from cvtsudoers.c: returns the C `int` value
`false` (0) for every user, group and passwd record. -/
def group_plugin_query (user group : List Char) (pw : Option Passwd) : Bool :=
  false

/-- The option-derived configuration accumulated by the getopt loop in
`main`: `output_format` (initially "JSON") and `output_file`
(initially "-"). -/
structure Config where
  output_format : List Char
  output_file : List Char
deriving DecidableEq, Repr

/-- Initial values of `output_format` and `output_file` in `main`. -/
def defaultConfig : Config := { output_format := str "JSON", output_file := str "-" }

/-- Outcome of the `getopt_long` loop of `main`: a usage error (unknown
option, missing option argument, or unsupported `-f` format, all of which
reach `usage(1)`), an exit through `help()` or the `-V` branch, or normal
completion with the final option state and the remaining operands
(GNU getopt permutes: operands are collected across the whole vector). -/
inductive GetoptResult where
  | usageErr : GetoptResult
  | helpExit : GetoptResult
  | versionExit : GetoptResult
  | done : Config → List (List Char) → GetoptResult
deriving DecidableEq, Repr

/-- Split a long-option token body at the first `'='`:
`format=json` becomes `(format, some json)`, `help` becomes `(help, none)`. -/
def splitEq : List Char → List Char × Option (List Char)
  | [] => ([], none)
  | c :: cs =>
      if c = '=' then ([], some cs)
      else
        let r := splitEq cs
        (c :: r.1, r.2)

/-- An option that still needs its argument from the next argv token:
after a bare `-f`/`--format` the next token is the format value, after a
bare `-o`/`--output` it is the output file; `noneP` means no argument is
pending. -/
inductive Pending where
  | noneP : Pending
  | fmt : Pending
  | out : Pending
deriving DecidableEq, Repr

/-- Result of processing one option token: either a terminal getopt
outcome, or the updated config together with the option argument still
expected from the next argv token. -/
inductive ShortStep where
  | term : GetoptResult → ShortStep
  | cont : Config → Pending → ShortStep
deriving DecidableEq, Repr

/-- Process the characters of one short-option cluster against the option
string "f:ho:V". `'f'` checks `strcasecmp(optarg, "json")` and reaches
`usage(1)` on mismatch; `'h'` reaches `help()`; `'o'` stores the output
file; `'V'` takes the version-print exit; anything else reaches the
`default:` arm, `usage(1)`. An option requiring an argument takes the rest
of the cluster if non-empty, otherwise the next argv token. -/
def processShort (chars : List Char) (cfg : Config) : ShortStep :=
  match chars with
  | [] => .cont cfg .noneP
  | c :: cs =>
      if c = 'f' then
        if cs.isEmpty then .cont cfg .fmt
        else if strcaseEq cs (str "json") then
          .cont { cfg with output_format := cs } .noneP
        else .term .usageErr
      else if c = 'h' then .term .helpExit
      else if c = 'o' then
        if cs.isEmpty then .cont cfg .out
        else .cont { cfg with output_file := cs } .noneP
      else if c = 'V' then .term .versionExit
      else .term .usageErr

/-- Process a long-option token body (the part after "--") against the
long-option table { format, help, output, version }. Returns a terminal
outcome or the updated config plus the option argument still expected from
the next argv token. -/
def processLong (body : List Char) (cfg : Config) : ShortStep :=
  let p := splitEq body
  if p.1 = str "format" then
    match p.2 with
    | some v =>
        if strcaseEq v (str "json") then .cont { cfg with output_format := v } .noneP
        else .term .usageErr
    | none => .cont cfg .fmt
  else if p.1 = str "help" then .term .helpExit
  else if p.1 = str "output" then
    match p.2 with
    | some v => .cont { cfg with output_file := v } .noneP
    | none => .cont cfg .out
  else if p.1 = str "version" then .term .versionExit
  else .term .usageErr

/-- How `getopt_long` treats one argv token: `--` ends option processing,
`--xyz` is a long option, `-xyz` (but not a lone `-`) is a cluster of short
options, and everything else (including `-` and the empty token) is a
non-option operand. -/
inductive TokKind where
  | optsEnd : TokKind
  | long : List Char → TokKind
  | short : List Char → TokKind
  | operand : TokKind
deriving DecidableEq, Repr

/-- Classify one argv token. -/
def classify (tok : List Char) : TokKind :=
  match tok with
  | '-' :: '-' :: [] => .optsEnd
  | '-' :: '-' :: b :: body => .long (b :: body)
  | '-' :: c :: cs => .short (c :: cs)
  | _ => .operand

/-- The `getopt_long(argc, argv, "f:ho:V", long_opts, NULL)` loop of `main`,
with GNU argument permutation: non-option tokens are collected as operands,
`--` ends option processing, a lone `-` is an operand, and options are
processed left to right, the first terminal event (help, version, usage
error) winning. -/
def processOpts : List (List Char) → Pending → Config → List (List Char) → GetoptResult
  | [], .noneP, cfg, ops => .done cfg ops.reverse
  | [], _, _, _ => .usageErr
  | tok :: rest, .fmt, cfg, ops =>
      if strcaseEq tok (str "json") then
        processOpts rest .noneP { cfg with output_format := tok } ops
      else .usageErr
  | tok :: rest, .out, cfg, ops =>
      processOpts rest .noneP { cfg with output_file := tok } ops
  | tok :: rest, .noneP, cfg, ops =>
      match classify tok with
      | .optsEnd => .done cfg (ops.reverse ++ rest)
      | .long body =>
          (match processLong body cfg with
           | .term r => r
           | .cont cfg2 pend => processOpts rest pend cfg2 ops)
      | .short chars =>
          (match processShort chars cfg with
           | .term r => r
           | .cont cfg2 pend => processOpts rest pend cfg2 ops)
      | .operand => processOpts rest .noneP cfg (tok :: ops)

/-- Everything `main` obtains from its process environment and from the
external collaborators, fixed for one invocation: the argument vector
(past argv[0]), whether locale setup, sudo.conf reading and debug
registration succeed, effective and real uid, the SUDO_USER environment
variable, the passwd lookups, the hostname lookup, whether
`init_defaults()` succeeds, and the external `export_sudoers` routine. -/
structure World where
  args : List (List Char)
  localeOk : Bool
  confOk : Bool
  debugOk : Bool
  euid : Nat
  uid : Nat
  sudoUser : Option (List Char)
  getpwnam : List Char → Option Passwd
  getpwuid : Nat → Option Passwd
  gethostname : Option (List Char)
  initDefaultsOk : Bool
  export_sudoers : List Char → List Char → Bool

/-- The identity-resolution block of `main`: when `geteuid() == 0` and
`getenv("SUDO_USER")` is present and non-empty, `sudo_getpwnam` is tried;
whenever that left `sudo_user.pw` NULL, `sudo_getpwuid(getuid())` is
tried. -/
def resolveIdentity (w : World) : Option Passwd :=
  let pwEnv : Option Passwd :=
    if w.euid = 0 then
      match w.sudoUser with
      | some u => if u.isEmpty then none else w.getpwnam u
      | none => none
    else none
  match pwEnv with
  | some pw => some pw
  | none => w.getpwuid w.uid

/-- The observable outcome of one invocation of cvtsudoers `main`: the
process exit status, whether usage text, help text or version text was
printed, the input path selected from the operands (recorded once `main`
passes the positional-argument check), the resolved identity and host
strings, and whether and with which `(input, output)` paths the external
exporter was invoked, together with its boolean result. -/
structure RunResult where
  exitcode : Nat
  usagePrinted : Bool
  helpShown : Bool
  versionShown : Bool
  input_path : Option (List Char)
  identity : Option Passwd
  host : Option HostInfo
  exporterCalled : Option (List Char × List Char)
  exporterResult : Option Bool
deriving DecidableEq, Repr

/-- A run that ended before reaching the positional-argument check, with the
given exit status and usage/help/version flags. -/
def earlyExit (code : Nat) (usage help ver : Bool) : RunResult :=
  { exitcode := code, usagePrinted := usage, helpShown := help,
    versionShown := ver, input_path := none, identity := none, host := none,
    exporterCalled := none, exporterResult := none }

/-- The tail of `main` starting at the identity-resolution block, once the
input and output files are fixed: identity resolution (fatal when no passwd
record resolves), `get_hostname()` (never fatal), `init_defaults()` (fatal
on failure), and the `export_sudoers(input_file, output_file)` call whose
boolean result becomes the exit status. -/
def runPipeline (w : World) (input_file output_file : List Char) : RunResult :=
  match resolveIdentity w with
  | none =>
      { exitcode := 1, usagePrinted := false, helpShown := false,
        versionShown := false, input_path := some input_file,
        identity := none, host := none, exporterCalled := none,
        exporterResult := none }
  | some pw =>
      let h := get_hostname w.gethostname
      if !w.initDefaultsOk then
        { exitcode := 1, usagePrinted := false, helpShown := false,
          versionShown := false, input_path := some input_file,
          identity := some pw, host := some h, exporterCalled := none,
          exporterResult := none }
      else
        let res := w.export_sudoers input_file output_file
        { exitcode := if res then 0 else 1, usagePrinted := false,
          helpShown := false, versionShown := false,
          input_path := some input_file, identity := some pw,
          host := some h,
          exporterCalled := some (input_file, output_file),
          exporterResult := some res }

/-- Function `main` of cvtsudoers.c as a function from the process environment to the
observable outcome. Follows the source order: locale setup, sudo.conf read,
debug registration (each failure ends the run with EXIT_FAILURE), the
getopt loop, the positional-argument check (`argc > 1` after options is
`usage(1)`), input-file selection (default "-"), and the `runPipeline`
tail. -/
def run (w : World) : RunResult :=
  if !w.localeOk then earlyExit 1 false false false
  else if !w.confOk then earlyExit 1 false false false
  else if !w.debugOk then earlyExit 1 false false false
  else
    match processOpts w.args .noneP defaultConfig [] with
    | .usageErr => earlyExit 1 true false false
    | .helpExit => earlyExit 0 true true false
    | .versionExit => earlyExit 0 false false true
    | .done cfg ops =>
        if ops.length > 1 then earlyExit 1 true false false
        else runPipeline w (ops.headD (str "-")) cfg.output_file

/-! ## Helper lemmas -/

lemma hasDot_append_dot (s1 s2 : List Char) :
    hasDot (s1 ++ '.' :: s2) = true := by
  induction s1 with
  | nil => simp [hasDot]
  | cons c cs ih => simp [hasDot]; exact Or.inr ih

lemma takeUntilDot_append_dot (s1 s2 : List Char) (h : hasDot s1 = false) :
    takeUntilDot (s1 ++ '.' :: s2) = s1 := by
  induction s1 with
  | nil => simp [takeUntilDot]
  | cons c cs ih =>
      simp [hasDot] at h
      simp [takeUntilDot, h.1, ih h.2]

lemma run_parse_done (w : World) (cfg : Config) (ops : List (List Char))
    (hl : w.localeOk = true) (hc : w.confOk = true) (hdg : w.debugOk = true)
    (hp : processOpts w.args .noneP defaultConfig [] = .done cfg ops)
    (hops : ops.length ≤ 1) :
    run w = runPipeline w (ops.headD (str "-")) cfg.output_file := by
  unfold run
  rw [hl, hc, hdg, hp]
  simp only [Bool.not_true, Bool.false_eq_true, if_false]
  rw [if_neg (by omega)]

lemma run_parse_usageErr (w : World)
    (hl : w.localeOk = true) (hc : w.confOk = true) (hdg : w.debugOk = true)
    (hp : processOpts w.args .noneP defaultConfig [] = .usageErr) :
    run w = earlyExit 1 true false false := by
  unfold run
  rw [hl, hc, hdg, hp]
  simp only [Bool.not_true, Bool.false_eq_true, if_false]

lemma run_parse_many_operands (w : World) (cfg : Config) (ops : List (List Char))
    (hl : w.localeOk = true) (hc : w.confOk = true) (hdg : w.debugOk = true)
    (hp : processOpts w.args .noneP defaultConfig [] = .done cfg ops)
    (hops : 2 ≤ ops.length) :
    run w = earlyExit 1 true false false := by
  unfold run
  rw [hl, hc, hdg, hp]
  simp only [Bool.not_true, Bool.false_eq_true, if_false]
  rw [if_pos (by omega)]

lemma runPipeline_input_path (w : World) (i o : List Char) :
    (runPipeline w i o).input_path = some i := by
  unfold runPipeline
  rcases resolveIdentity w with _ | pw
  · rfl
  · by_cases hdef : w.initDefaultsOk <;> simp [hdef]

lemma runPipeline_ident_none (w : World) (i o : List Char)
    (hid : resolveIdentity w = none) :
    runPipeline w i o =
      { exitcode := 1, usagePrinted := false, helpShown := false,
        versionShown := false, input_path := some i, identity := none,
        host := none, exporterCalled := none, exporterResult := none } := by
  unfold runPipeline
  rw [hid]

lemma runPipeline_ok (w : World) (i o : List Char) (pw : Passwd)
    (hid : resolveIdentity w = some pw) (hdef : w.initDefaultsOk = true) :
    runPipeline w i o =
      { exitcode := if w.export_sudoers i o then 0 else 1,
        usagePrinted := false, helpShown := false, versionShown := false,
        input_path := some i, identity := some pw,
        host := some (get_hostname w.gethostname),
        exporterCalled := some (i, o),
        exporterResult := some (w.export_sudoers i o) } := by
  unfold runPipeline
  rw [hid, hdef]
  simp

/-! ## Concrete worlds used by the witnesses -/

/-- A passwd record used by the witnesses. -/
def pwAlice : Passwd :=
  { pw_name := str "alice", pw_uid := 1000, pw_gid := 1000,
    pw_dir := str "/home/alice", pw_shell := str "/bin/sh" }

/-- A passwd record used by the witnesses for the SUDO_USER path. -/
def pwRoot : Passwd :=
  { pw_name := str "root", pw_uid := 0, pw_gid := 0,
    pw_dir := str "/root", pw_shell := str "/bin/sh" }

/-- A concrete process environment used by the witnesses: empty argument
vector, all setup steps succeed, euid 0, real uid 1000 resolving to
`pwAlice`, `sudo_getpwnam` resolving only "root", no SUDO_USER, a dotted
hostname, defaults initialization succeeding, and an exporter that
succeeds. -/
def baseWorld : World :=
  { args := [], localeOk := true, confOk := true, debugOk := true,
    euid := 0, uid := 1000, sudoUser := none,
    getpwnam := fun u => if u = str "root" then some pwRoot else none,
    getpwuid := fun u => if u = 1000 then some pwAlice else none,
    gethostname := some (str "host.example.com"),
    initDefaultsOk := true,
    export_sudoers := fun _ _ => true }

/-! ## Claim theorems -/

/-- C4: when the OS hostname lookup succeeds and the hostname contains a
dot, `get_hostname` splits it at its first dot: the prefix becomes
`user_shost`, the untruncated original string stays `user_host`, and the
run-host aliases `user_runhost`/`user_srunhost` equal them. -/
theorem C4_hostname_split_at_first_dot (s1 s2 : List Char)
    (h : hasDot s1 = false) :
    get_hostname (some (s1 ++ '.' :: s2)) =
      { user_host := s1 ++ '.' :: s2, user_shost := s1,
        user_runhost := s1 ++ '.' :: s2, user_srunhost := s1 } := by
  simp [get_hostname, hasDot_append_dot, takeUntilDot_append_dot, h]

/-- Witness for C4 at hostname "foo.example.com". -/
theorem C4_hostname_split_at_first_dot_witness :
    hasDot (str "foo") = false ∧
    get_hostname (some (str "foo.example.com")) =
      { user_host := str "foo.example.com", user_shost := str "foo",
        user_runhost := str "foo.example.com", user_srunhost := str "foo" } :=
  ⟨by decide,
   C4_hostname_split_at_first_dot (str "foo") (str "example.com") (by decide)⟩

/-- C9: when the resolved hostname contains no dot, the short host is the
very same string as the full host and the run-host aliases equal them. -/
theorem C9_hostname_no_dot (h : List Char) (hd : hasDot h = false) :
    get_hostname (some h) =
      { user_host := h, user_shost := h,
        user_runhost := h, user_srunhost := h } := by
  simp [get_hostname, hd]

/-- Witness for C9 at hostname "myhost". -/
theorem C9_hostname_no_dot_witness :
    hasDot (str "myhost") = false ∧
    get_hostname (some (str "myhost")) =
      { user_host := str "myhost", user_shost := str "myhost",
        user_runhost := str "myhost", user_srunhost := str "myhost" } :=
  ⟨by decide, C9_hostname_no_dot (str "myhost") (by decide)⟩

/-- C10: the stub capability functions are constant: `user_is_exempt` is
always false, `group_plugin_query` is always false for every user, group
and passwd record, and `init_envtables` is always true. -/
theorem C10_stub_constants :
    user_is_exempt = false ∧ init_envtables = true ∧
    ∀ (u g : List Char) (pw : Option Passwd), group_plugin_query u g pw = false :=
  ⟨rfl, rfl, fun _ _ _ => rfl⟩

/-- C3: the hostname resolver is never fatal: in any run that reaches it,
if the OS hostname lookup fails all four host fields take the literal
value "localhost", and the pipeline still continues to the conversion
attempt (the exporter is invoked). -/
theorem C3_hostname_fallback_nonfatal (w : World) (cfg : Config)
    (ops : List (List Char)) (p : Passwd)
    (hl : w.localeOk = true) (hc : w.confOk = true) (hdg : w.debugOk = true)
    (hp : processOpts w.args .noneP defaultConfig [] = .done cfg ops)
    (hops : ops.length ≤ 1)
    (hid : resolveIdentity w = some p)
    (hdef : w.initDefaultsOk = true)
    (hgh : w.gethostname = none) :
    (run w).host =
      some { user_host := str "localhost", user_shost := str "localhost",
             user_runhost := str "localhost", user_srunhost := str "localhost" } ∧
    (run w).exporterCalled = some (ops.headD (str "-"), cfg.output_file) := by
  rw [run_parse_done w cfg ops hl hc hdg hp hops,
      runPipeline_ok w _ _ p hid hdef]
  simp [get_hostname, hgh]

/-- Witness for C3: `baseWorld` with a failing hostname lookup. -/
theorem C3_hostname_fallback_nonfatal_witness :
    processOpts ({ baseWorld with gethostname := none }).args .noneP defaultConfig []
        = .done defaultConfig [] ∧
    resolveIdentity { baseWorld with gethostname := none } = some pwAlice ∧
    ((run { baseWorld with gethostname := none }).host =
      some { user_host := str "localhost", user_shost := str "localhost",
             user_runhost := str "localhost", user_srunhost := str "localhost" } ∧
     (run { baseWorld with gethostname := none }).exporterCalled =
      some (str "-", str "-")) :=
  ⟨by decide, by decide,
   C3_hostname_fallback_nonfatal { baseWorld with gethostname := none }
     defaultConfig [] pwAlice rfl rfl rfl (by decide) (by decide) (by decide)
     rfl rfl⟩

lemma runPipeline_identity (w : World) (i o : List Char) :
    (runPipeline w i o).identity = resolveIdentity w := by
  unfold runPipeline
  cases h : resolveIdentity w
  · rfl
  · by_cases hdef : w.initDefaultsOk <;> simp [hdef]

lemma run_ext (w1 w2 : World)
    (ha : w1.args = w2.args) (hl : w1.localeOk = w2.localeOk)
    (hc : w1.confOk = w2.confOk) (hd : w1.debugOk = w2.debugOk)
    (hi : resolveIdentity w1 = resolveIdentity w2)
    (hg : w1.gethostname = w2.gethostname)
    (hdef : w1.initDefaultsOk = w2.initDefaultsOk)
    (he : w1.export_sudoers = w2.export_sudoers) :
    run w1 = run w2 := by
  unfold run runPipeline
  rw [ha, hl, hc, hd, hi, hg, hdef, he]

lemma resolveIdentity_env_miss (w : World)
    (henv : w.euid = 0 → ∀ u, w.sudoUser = some u → u ≠ [] → w.getpwnam u = none) :
    resolveIdentity w = w.getpwuid w.uid := by
  unfold resolveIdentity
  by_cases he : w.euid = 0
  · rcases hsu : w.sudoUser with _ | u
    · simp [he]
    · by_cases hu : u = []
      · subst hu; simp [he]
      · simp [he, hu, List.isEmpty_iff, henv he u hsu hu]
  · simp [he]

/-- C1: the identity-resolution algorithm of `main`: with elevated
effective privilege (euid 0) and a present, non-empty SUDO_USER that
resolves via `sudo_getpwnam`, that record is the identity; otherwise, or
when that lookup misses, the record for the real uid from `sudo_getpwuid`
is the identity; and when neither lookup yields a record the run ends
fatally with exit status 1 and the exporter is never invoked. -/
theorem C1_identity_resolution (w : World) (cfg : Config)
    (ops : List (List Char))
    (hl : w.localeOk = true) (hc : w.confOk = true) (hdg : w.debugOk = true)
    (hp : processOpts w.args .noneP defaultConfig [] = .done cfg ops)
    (hops : ops.length ≤ 1) :
    (∀ u p, w.euid = 0 → w.sudoUser = some u → u ≠ [] →
       w.getpwnam u = some p → (run w).identity = some p) ∧
    ((w.euid = 0 → ∀ u, w.sudoUser = some u → u ≠ [] → w.getpwnam u = none) →
       (run w).identity = w.getpwuid w.uid) ∧
    ((w.euid = 0 → ∀ u, w.sudoUser = some u → u ≠ [] → w.getpwnam u = none) →
       w.getpwuid w.uid = none →
       (run w).exitcode = 1 ∧ (run w).exporterCalled = none ∧
       (run w).identity = none) := by
  have hdone := run_parse_done w cfg ops hl hc hdg hp hops
  refine ⟨?_, ?_, ?_⟩
  · intro u p he hsu hne hnam
    have hid : resolveIdentity w = some p := by
      unfold resolveIdentity
      rw [hsu]
      simp [he, List.isEmpty_iff, hne, hnam]
    rw [hdone, runPipeline_identity, hid]
  · intro henv
    rw [hdone, runPipeline_identity, resolveIdentity_env_miss w henv]
  · intro henv huid
    have hid : resolveIdentity w = none :=
      (resolveIdentity_env_miss w henv).trans huid
    rw [hdone, runPipeline_ident_none _ _ _ hid]
    exact ⟨rfl, rfl, rfl⟩

/-- A witness world for C1: elevated privilege and SUDO_USER set to "root",
which `sudo_getpwnam` resolves to `pwRoot`. -/
def worldSudoRoot : World := { baseWorld with sudoUser := some (str "root") }

/-- Witness for C1: under euid 0 with SUDO_USER="root" resolvable, the
resolved identity is the record for "root". -/
theorem C1_identity_resolution_witness :
    processOpts worldSudoRoot.args .noneP defaultConfig [] =
        .done defaultConfig [] ∧
    worldSudoRoot.getpwnam (str "root") = some pwRoot ∧
    (run worldSudoRoot).identity = some pwRoot :=
  ⟨by decide, by decide,
   (C1_identity_resolution worldSudoRoot defaultConfig [] rfl rfl rfl
      (by decide) (by decide)).1 (str "root") pwRoot rfl rfl (by decide)
      (by decide)⟩

/-- C2: whenever the getopt loop processes `-f`/`--format` with a value
that is not a case-insensitive match for "json" (separate, clustered or
`=`-attached), it ends in the usage error; a case-insensitive match is
accepted and recorded as the output format; and a run whose option
processing ends in the usage error prints usage text and exits with status
1 without invoking the exporter. -/
theorem C2_format_option_validation :
    (∀ (v : List Char) (rest : List (List Char)) (cfg : Config)
       (ops : List (List Char)),
      (strcaseEq v (str "json") = false →
        processOpts (str "-f" :: v :: rest) .noneP cfg ops = .usageErr ∧
        processOpts (str "--format" :: v :: rest) .noneP cfg ops = .usageErr ∧
        processOpts ((str "--format=" ++ v) :: rest) .noneP cfg ops = .usageErr ∧
        (v ≠ [] →
          processOpts ((str "-f" ++ v) :: rest) .noneP cfg ops = .usageErr)) ∧
      (strcaseEq v (str "json") = true →
        processOpts (str "-f" :: v :: rest) .noneP cfg ops =
          processOpts rest .noneP { cfg with output_format := v } ops)) ∧
    (∀ w : World, w.localeOk = true → w.confOk = true → w.debugOk = true →
      processOpts w.args .noneP defaultConfig [] = .usageErr →
      run w = earlyExit 1 true false false) := by
  constructor
  · intro v rest cfg ops
    constructor
    · intro h
      simp only [str] at h
      refine ⟨?_, ?_, ?_, ?_⟩
      · simp [processOpts, classify, processShort, str, h]
      · simp [processOpts, classify, processLong, splitEq, str, h]
      · simp [processOpts, classify, processLong, splitEq, str, h]
      · intro hne
        simp [processOpts, classify, processShort, str, h, hne]
    · intro h
      simp only [str] at h
      simp [processOpts, classify, processShort, str, h]
  · intro w hl hc hdg hp
    exact run_parse_usageErr w hl hc hdg hp

/-- A witness world for C2: `-f xml` on the command line. -/
def worldBadFormat : World := { baseWorld with args := [str "-f", str "xml"] }

/-- Witness for C2: "xml" is rejected with a usage error and exit status 1,
"JsOn" is accepted case-insensitively. -/
theorem C2_format_option_validation_witness :
    strcaseEq (str "xml") (str "json") = false ∧
    processOpts (str "-f" :: str "xml" :: []) .noneP defaultConfig [] =
        .usageErr ∧
    strcaseEq (str "JsOn") (str "json") = true ∧
    processOpts (str "-f" :: str "JsOn" :: []) .noneP defaultConfig [] =
        processOpts [] .noneP { defaultConfig with output_format := str "JsOn" } [] ∧
    run worldBadFormat = earlyExit 1 true false false :=
  ⟨by decide,
   ((C2_format_option_validation.1 (str "xml") [] defaultConfig []).1
      (by decide)).1,
   by decide,
   (C2_format_option_validation.1 (str "JsOn") [] defaultConfig []).2
      (by decide),
   C2_format_option_validation.2 worldBadFormat rfl rfl rfl (by decide)⟩

/-- C6: after option processing, two or more positional arguments end the
run with usage text and exit status 1; exactly one positional argument
becomes the input path; none leaves the input path at the standard-input
sentinel "-". -/
theorem C6_positional_arguments (w : World) (cfg : Config)
    (ops : List (List Char))
    (hl : w.localeOk = true) (hc : w.confOk = true) (hdg : w.debugOk = true)
    (hp : processOpts w.args .noneP defaultConfig [] = .done cfg ops) :
    (2 ≤ ops.length → run w = earlyExit 1 true false false) ∧
    (∀ p, ops = [p] → (run w).input_path = some p) ∧
    (ops = [] → (run w).input_path = some (str "-")) := by
  refine ⟨?_, ?_, ?_⟩
  · intro h2
    exact run_parse_many_operands w cfg ops hl hc hdg hp h2
  · intro p hops
    rw [run_parse_done w cfg ops hl hc hdg hp (by simp [hops])]
    subst hops
    simp [runPipeline_input_path]
  · intro hops
    rw [run_parse_done w cfg ops hl hc hdg hp (by simp [hops])]
    subst hops
    simp [runPipeline_input_path]

/-- A witness world for C6: two positional arguments. -/
def worldTwoOperands : World := { baseWorld with args := [str "a", str "b"] }

/-- A witness world for C6: one positional argument. -/
def worldOneOperand : World := { baseWorld with args := [str "in"] }

/-- Witness for C6: two positionals are a usage error; one positional
becomes the input path; none leaves it at "-". -/
theorem C6_positional_arguments_witness :
    processOpts worldTwoOperands.args .noneP defaultConfig [] =
        .done defaultConfig [str "a", str "b"] ∧
    run worldTwoOperands = earlyExit 1 true false false ∧
    processOpts worldOneOperand.args .noneP defaultConfig [] =
        .done defaultConfig [str "in"] ∧
    (run worldOneOperand).input_path = some (str "in") ∧
    processOpts baseWorld.args .noneP defaultConfig [] = .done defaultConfig [] ∧
    (run baseWorld).input_path = some (str "-") :=
  ⟨by decide,
   (C6_positional_arguments worldTwoOperands defaultConfig [str "a", str "b"]
      rfl rfl rfl (by decide)).1 (by decide),
   by decide,
   (C6_positional_arguments worldOneOperand defaultConfig [str "in"]
      rfl rfl rfl (by decide)).2.1 (str "in") rfl,
   by decide,
   (C6_positional_arguments baseWorld defaultConfig []
      rfl rfl rfl (by decide)).2.2 rfl⟩

/-- C7: without elevated effective privilege (euid different from 0) the
SUDO_USER environment variable has no effect: two runs differing only in
its value produce identical outcomes, and the identity comes from the real
uid. -/
theorem C7_sudo_user_ignored_without_privilege (w : World)
    (e1 e2 : Option (List Char)) (h : w.euid ≠ 0) :
    run { w with sudoUser := e1 } = run { w with sudoUser := e2 } ∧
    resolveIdentity { w with sudoUser := e1 } = w.getpwuid w.uid := by
  have hr : ∀ e, resolveIdentity { w with sudoUser := e } = w.getpwuid w.uid := by
    intro e
    unfold resolveIdentity
    simp [h]
  exact ⟨run_ext _ _ rfl rfl rfl rfl ((hr e1).trans (hr e2).symm) rfl rfl rfl,
         hr e1⟩

/-- A witness world for C7: no elevated privilege (euid 1000). -/
def worldUnprivileged : World := { baseWorld with euid := 1000 }

/-- Witness for C7: with euid 1000, setting SUDO_USER to "root" versus
leaving it unset changes nothing, and the identity is the real uid's
record. -/
theorem C7_sudo_user_ignored_without_privilege_witness :
    worldUnprivileged.euid ≠ 0 ∧
    (run { worldUnprivileged with sudoUser := some (str "root") } =
       run { worldUnprivileged with sudoUser := none } ∧
     resolveIdentity { worldUnprivileged with sudoUser := some (str "root") } =
       worldUnprivileged.getpwuid worldUnprivileged.uid) :=
  ⟨by decide,
   C7_sudo_user_ignored_without_privilege worldUnprivileged
     (some (str "root")) none (by decide)⟩

/-- C8: when no identity resolves (the environment path yielded no record
and there is no passwd record for the real uid), the run ends with exit
status 1 and the exporter — the only component that opens the input
file — is never invoked. -/
theorem C8_identity_fatal_before_exporter (w : World) (cfg : Config)
    (ops : List (List Char))
    (hl : w.localeOk = true) (hc : w.confOk = true) (hdg : w.debugOk = true)
    (hp : processOpts w.args .noneP defaultConfig [] = .done cfg ops)
    (hops : ops.length ≤ 1)
    (hid : resolveIdentity w = none) :
    (run w).exitcode = 1 ∧ (run w).exporterCalled = none ∧
    (run w).exporterResult = none := by
  rw [run_parse_done w cfg ops hl hc hdg hp hops,
      runPipeline_ident_none _ _ _ hid]
  exact ⟨rfl, rfl, rfl⟩

/-- A witness world for C8: both passwd lookups fail. -/
def worldNoPasswd : World :=
  { baseWorld with getpwnam := fun _ => none, getpwuid := fun _ => none }

/-- Witness for C8. -/
theorem C8_identity_fatal_before_exporter_witness :
    resolveIdentity worldNoPasswd = none ∧
    ((run worldNoPasswd).exitcode = 1 ∧
     (run worldNoPasswd).exporterCalled = none ∧
     (run worldNoPasswd).exporterResult = none) :=
  ⟨by decide,
   C8_identity_fatal_before_exporter worldNoPasswd defaultConfig []
     rfl rfl rfl (by decide) (by decide) (by decide)⟩

/-- C5: the exit status is always 0 or 1; it is 0 exactly when the run
succeeded (a help exit, a version exit, or the exporter reporting true);
and whenever the exporter ran, the exit status mirrors its boolean
result. -/
theorem C5_exit_status_discipline (w : World) :
    ((run w).exitcode = 0 ∨ (run w).exitcode = 1) ∧
    ((run w).exitcode = 0 ↔
      ((run w).helpShown = true ∨ (run w).versionShown = true ∨
       (run w).exporterResult = some true)) ∧
    (∀ b, (run w).exporterResult = some b →
       (run w).exitcode = if b then 0 else 1) := by
  unfold run runPipeline earlyExit
  repeat' split
  all_goals simp_all

/-- Witness for C5 at `baseWorld`: the exporter ran and returned true, and
the exit status mirrors it. -/
theorem C5_exit_status_discipline_witness :
    ((run baseWorld).exitcode = 0 ∨ (run baseWorld).exitcode = 1) ∧
    (run baseWorld).exporterResult = some true ∧
    (run baseWorld).exitcode = if true then 0 else 1 :=
  ⟨(C5_exit_status_discipline baseWorld).1,
   by decide,
   (C5_exit_status_discipline baseWorld).2.2 true (by decide)⟩
